import Mathlib

/-!
Shallow embedding of the pagination / session-state engine of the perfumeBot
repository (src/app/chatbot/utils.py, src/app/chatbot/routes.py,
src/app/chatbot/models.py), together with the catalog filter of
search_perfumes.

The two persisted JSON files (intermediate.json and pagination_state.json)
are modelled by inductive file contents: a file can be missing, unreadable or
corrupt (any state in which open/json.load raises), hold the legacy shape
(a bare JSON array, resp. a bare offset/total object), or hold the current
device-keyed object shape.  JSON objects preserve insertion order, so the
device-keyed shape is an association list with in-place update, as Python
dicts behave.  Machine integers of the Python code are Lean Int; Python list
slicing is modelled by pySlice with full negative-index semantics.

For the pagination file a second, refined model (PJson / PFileR / FSR) keeps
the parsed JSON value itself, because the code detects the legacy format by
the top-level keys ("offset" in data and "total_results" in data): that
check also fires on device entries carrying those names, and the refined
model captures the resulting misreads, the wrap-under-"default" conversion
on write, and the type errors fed into downstream code.
-/

namespace PerfumeBot

/-- Association-list lookup, the model of Python dict.get for the
device-keyed JSON objects. -/
def lookupA {α : Type} (m : List (String × α)) (k : String) : Option α :=
  match m with
  | [] => none
  | (k1, v) :: rest => if k1 = k then some v else lookupA rest k

/-- Association-list update, the model of Python dict assignment
(existing_data[device_id] = value): replaces in place, else appends. -/
def upsert {α : Type} (m : List (String × α)) (k : String) (v : α) :
    List (String × α) :=
  match m with
  | [] => [(k, v)]
  | (k1, v1) :: rest => if k1 = k then (k, v) :: rest else (k1, v1) :: upsert rest k v

/-- Clamping of one slice bound, as Python slicing does for a list of
length n: negative indices count from the end, everything is clamped
into [0, n]. -/
def pyIndex (n : Int) (i : Int) : Int :=
  if i < 0 then max 0 (i + n) else min i n

/-- Python list slicing l[i:j] (step 1). -/
def pySlice {α : Type} (l : List α) (i j : Int) : List α :=
  let n : Int := l.length
  let s := pyIndex n i
  let e := pyIndex n j
  (l.drop s.toNat).take (e - s).toNat

/-- The pagination record written to pagination_state.json:
{"offset": ..., "total_results": ...}. -/
structure PagState where
  offset : Int
  total_results : Int
deriving DecidableEq, Repr

/-- Contents of intermediate.json for items of type α: missing file,
unreadable/corrupt file, legacy shape (bare array), or the device-keyed
object shape. -/
inductive IFile (α : Type) where
  | missing : IFile α
  | corrupt : IFile α
  | legacy (items : List α) : IFile α
  | byDevice (entries : List (String × List α)) : IFile α
deriving DecidableEq, Repr

/-- Contents of pagination_state.json: missing file, unreadable/corrupt
file, legacy shape (a bare object holding the keys offset and
total_results), or the device-keyed object shape. -/
inductive PFile where
  | missing : PFile
  | corrupt : PFile
  | legacy (st : PagState) : PFile
  | byDevice (entries : List (String × PagState)) : PFile
deriving DecidableEq, Repr

/-- The persisted state the engine reads and writes: the pair of JSON
files. -/
structure FS (α : Type) where
  inter : IFile α
  pag : PFile
deriving DecidableEq, Repr

/-- utils.py _read_intermediate: returns [] on a missing or unreadable
file, handles the legacy array shape (visible only to device "default"),
else data.get(device_id, []). -/
def read_intermediate {α : Type} (fs : FS α) (device_id : String) : List α :=
  match fs.inter with
  | .missing => []
  | .corrupt => []
  | .legacy data => if device_id = "default" then data else []
  | .byDevice data => (lookupA data device_id).getD []

/-- The existing_data dictionary _write_intermediate recovers from the
current file before updating: legacy arrays are wrapped under key
"default", unreadable files give the empty dict. -/
def iFileEntries {α : Type} (f : IFile α) : List (String × List α) :=
  match f with
  | .missing => []
  | .corrupt => []
  | .legacy data => [("default", data)]
  | .byDevice data => data

/-- utils.py _write_intermediate: read-modify-write of the whole file,
updating the entry of device_id. -/
def write_intermediate {α : Type} (fs : FS α) (data_list : List α)
    (device_id : String) : FS α :=
  { fs with inter := .byDevice (upsert (iFileEntries fs.inter) device_id data_list) }

/-- utils.py _read_pagination_state: default {offset 0, total 0} on a
missing or unreadable file, legacy shape visible only to device
"default", else data.get(device_id, default). -/
def read_pagination_state (fs : FS α) (device_id : String) : PagState :=
  match fs.pag with
  | .missing => { offset := 0, total_results := 0 }
  | .corrupt => { offset := 0, total_results := 0 }
  | .legacy st => if device_id = "default" then st else { offset := 0, total_results := 0 }
  | .byDevice data => (lookupA data device_id).getD { offset := 0, total_results := 0 }

/-- The existing_data dictionary _write_pagination_state recovers from the
current file before updating. -/
def pFileEntries (f : PFile) : List (String × PagState) :=
  match f with
  | .missing => []
  | .corrupt => []
  | .legacy st => [("default", st)]
  | .byDevice data => data

/-- utils.py _write_pagination_state: read-modify-write of the whole
file, updating the entry of device_id. -/
def write_pagination_state (fs : FS α) (offset : Int) (total_results : Int)
    (device_id : String) : FS α :=
  { fs with
    pag := .byDevice (upsert (pFileEntries fs.pag) device_id
      { offset := offset, total_results := total_results }) }

/-- utils.py get_next_results: returns the next batch of results and the
resulting file state.  Guard: `if not all_results or offset >=
len(all_results): return []` with no write; otherwise slices
all_results[offset:end_index] with end_index = min(offset + count,
len(all_results)) and writes the advanced state. -/
def get_next_results (fs : FS α) (count : Int) (device_id : String) :
    List α × FS α :=
  let pagination_state := read_pagination_state fs device_id
  let offset := pagination_state.offset
  let all_results := read_intermediate fs device_id
  if all_results.length = 0 ∨ (all_results.length : Int) ≤ offset then
    ([], fs)
  else
    let end_index : Int := min (offset + count) (all_results.length : Int)
    let batch := pySlice all_results offset end_index
    let new_offset := end_index
    (batch, write_pagination_state fs new_offset (all_results.length : Int) device_id)

/-- utils.py reset_pagination: writes {offset 0, total 0} for the
device. -/
def reset_pagination (fs : FS α) (device_id : String) : FS α :=
  write_pagination_state fs 0 0 device_id

/-- utils.py get_remaining_count: 0 when no results are stored, else
max(0, len(all_results) - offset). -/
def get_remaining_count (fs : FS α) (device_id : String) : Int :=
  let pagination_state := read_pagination_state fs device_id
  let all_results := read_intermediate fs device_id
  if all_results.length = 0 then 0
  else max 0 ((all_results.length : Int) - pagination_state.offset)

/-- utils.py store_search_results: writes the full result list, resets
pagination, takes results[:page_size] as the first page, then writes the
state {offset page_size, total len(results)}.  Returns the first page and
the resulting file state. -/
def store_search_results (fs : FS α) (results : List α) (page_size : Int)
    (device_id : String) : List α × FS α :=
  let fs1 := write_intermediate fs results device_id
  let fs2 := reset_pagination fs1 device_id
  let first_batch := pySlice results 0 page_size
  let fs3 := write_pagination_state fs2 page_size (results.length : Int) device_id
  (first_batch, fs3)

/-- n successive get_next_results calls with a fixed count, collecting
the returned batches in order. -/
def drain (fs : FS α) (count : Int) (device_id : String) : Nat → List (List α)
  | 0 => []
  | n + 1 =>
    let r := get_next_results fs count device_id
    r.1 :: drain r.2 count device_id n

/-- Successive get_next_results calls with an arbitrary list of counts,
collecting the returned batches in order. -/
def nextSeq (fs : FS α) (device_id : String) : List Int → List (List α)
  | [] => []
  | c :: cs =>
    let r := get_next_results fs c device_id
    r.1 :: nextSeq r.2 device_id cs

/-- One mutating operation of the pagination engine, with its partition
key and arguments. -/
inductive Op (α : Type) where
  | store (device_id : String) (results : List α) (page_size : Int) : Op α
  | next (device_id : String) (count : Int) : Op α
  | reset (device_id : String) : Op α
deriving DecidableEq, Repr

/-- Executing one operation against the persisted state. -/
def applyOp (fs : FS α) : Op α → FS α
  | .store d results page_size => (store_search_results fs results page_size d).2
  | .next d count => (get_next_results fs count d).2
  | .reset d => reset_pagination fs d

/-- Arguments as the normal callers supply them: a page size between 0
and the number of results, and a non-negative count. -/
def goodOp : Op α → Prop
  | .store _ results page_size => 0 ≤ page_size ∧ page_size ≤ (results.length : Int)
  | .next _ count => 0 ≤ count
  | .reset _ => True

instance goodOpDecidable (op : Op α) : Decidable (goodOp op) :=
  match op with
  | .store _ results page_size =>
    inferInstanceAs (Decidable (0 ≤ page_size ∧ page_size ≤ (results.length : Int)))
  | .next _ count => inferInstanceAs (Decidable (0 ≤ count))
  | .reset _ => inferInstanceAs (Decidable True)

/-! ### A JSON-level model of the pagination file

The PFile model above fixes the shape of pagination_state.json by
constructor, so it cannot express that the code detects the legacy format
by the top-level keys: `"offset" in data and "total_results" in data`
also fires when the device-keyed object happens to hold device entries
named "offset" and "total_results".  The refined model below stores the
parsed JSON value itself (integers and objects — the only shapes this
program ever writes into that file), so the key-based detection, the
wrap-under-"default" conversion on write, and the type errors the
misdetection feeds into downstream code are modelled exactly. -/

/-- A parsed JSON value of pagination_state.json: an integer (a legacy
cursor field) or an object. -/
inductive PJson where
  | num (n : Int) : PJson
  | obj (entries : List (String × PJson)) : PJson

/-- The JSON object {"offset": o, "total_results": t}. -/
def cursorObj (offset total_results : Int) : PJson :=
  .obj [("offset", .num offset), ("total_results", .num total_results)]

/-- Refined contents of pagination_state.json: missing, unreadable (open
or json.load raises), or a parsed JSON value. -/
inductive PFileR where
  | missing : PFileR
  | corrupt : PFileR
  | content (j : PJson) : PFileR

/-- Python `key in data` on a parsed JSON object: a top-level key
test. -/
def jHasKey (entries : List (String × PJson)) (k : String) : Bool :=
  (lookupA entries k).isSome

/-- Python data[key] on a parsed JSON value: none models the raised
TypeError (subscripting a non-object) or KeyError (absent key). -/
def jLookup : PJson → String → Option PJson
  | .num _, _ => none
  | .obj entries, k => lookupA entries k

/-- utils.py _read_pagination_state over the refined file model: the
default on a missing or unreadable file and when the shape check itself
raises (top-level integer, caught by the except); on an object, the
key-based legacy check `"offset" in data and "total_results" in data` —
which also fires on device entries carrying those names — returns the
whole object for device "default" and the default for every other
device; otherwise data.get(device_id, default). -/
def read_pagination_state_json (f : PFileR) (device_id : String) : PJson :=
  match f with
  | .missing => cursorObj 0 0
  | .corrupt => cursorObj 0 0
  | .content (.num _) => cursorObj 0 0
  | .content (.obj data) =>
    if jHasKey data "offset" && jHasKey data "total_results" then
      if device_id = "default" then .obj data else cursorObj 0 0
    else (lookupA data device_id).getD (cursorObj 0 0)

/-- The existing_data dictionary _write_pagination_state recovers before
updating, over the refined model: {} when the file is missing, unreadable
or a top-level integer (the `in` check raises inside the try); an object
holding both top-level keys "offset" and "total_results" — legacy or
misdetected — is wrapped whole under "default"; otherwise the object
itself. -/
def pagEntriesAfterLoad (f : PFileR) : List (String × PJson) :=
  match f with
  | .missing => []
  | .corrupt => []
  | .content (.num _) => []
  | .content (.obj data) =>
    if jHasKey data "offset" && jHasKey data "total_results" then
      [("default", .obj data)]
    else data

/-- utils.py _write_pagination_state over the refined model. -/
def write_pagination_state_json (f : PFileR) (offset total_results : Int)
    (device_id : String) : PFileR :=
  .content (.obj (upsert (pagEntriesAfterLoad f) device_id
    (cursorObj offset total_results)))

/-- The refined persisted state: the intermediate file (whose legacy
check `isinstance(data, list)` cannot misfire on a device-keyed object,
so the IFile model is kept) and the refined pagination file. -/
structure FSR (α : Type) where
  inter : IFile α
  pag : PFileR

/-- utils.py _read_intermediate over the refined state (the same code as
read_intermediate). -/
def read_intermediate_r {α : Type} (fs : FSR α) (device_id : String) : List α :=
  match fs.inter with
  | .missing => []
  | .corrupt => []
  | .legacy data => if device_id = "default" then data else []
  | .byDevice data => (lookupA data device_id).getD []

/-- utils.py _write_intermediate over the refined state. -/
def write_intermediate_r {α : Type} (fs : FSR α) (data_list : List α)
    (device_id : String) : FSR α :=
  { fs with inter := .byDevice (upsert (iFileEntries fs.inter) device_id data_list) }

/-- utils.py get_next_results over the refined model.  The first
component is none when the call raises: a KeyError on
pagination_state["offset"], or a TypeError comparing a non-integer
offset — reached only when the result list is non-empty, because of the
short-circuit in `if not all_results or offset >= len(all_results)`.
The code raises before any write, so the returned state is then the
unchanged input state. -/
def get_next_results_r (fs : FSR α) (count : Int) (device_id : String) :
    Option (List α) × FSR α :=
  match jLookup (read_pagination_state_json fs.pag device_id) "offset" with
  | none => (none, fs)
  | some offset_j =>
    let all_results := read_intermediate_r fs device_id
    if all_results.length = 0 then (some [], fs)
    else
      match offset_j with
      | .obj _ => (none, fs)
      | .num offset =>
        if (all_results.length : Int) ≤ offset then (some [], fs)
        else
          let end_index : Int := min (offset + count) (all_results.length : Int)
          let new_pag := write_pagination_state_json fs.pag end_index (all_results.length : Int) device_id
          (some (pySlice all_results offset end_index), { fs with pag := new_pag })

/-- utils.py reset_pagination over the refined model. -/
def reset_pagination_r (fs : FSR α) (device_id : String) : FSR α :=
  { fs with pag := write_pagination_state_json fs.pag 0 0 device_id }

/-- utils.py get_remaining_count over the refined model: none models the
raise on pagination_state["offset"] (KeyError) or on subtracting a
non-integer offset (TypeError), both reached only with a non-empty result
list. -/
def get_remaining_count_r (fs : FSR α) (device_id : String) : Option Int :=
  let all_results := read_intermediate_r fs device_id
  if all_results.length = 0 then some 0
  else
    match jLookup (read_pagination_state_json fs.pag device_id) "offset" with
    | some (.num offset) => some (max 0 ((all_results.length : Int) - offset))
    | some (.obj _) => none
    | none => none

/-- utils.py store_search_results over the refined model (it only
writes, so it raises nowhere). -/
def store_search_results_r (fs : FSR α) (results : List α) (page_size : Int)
    (device_id : String) : List α × FSR α :=
  let fs1 := write_intermediate_r fs results device_id
  let fs2 := reset_pagination_r fs1 device_id
  let first_batch := pySlice results 0 page_size
  let new_pag := write_pagination_state_json fs2.pag page_size (results.length : Int) device_id
  let fs3 := { fs2 with pag := new_pag }
  (first_batch, fs3)

/-- Running a sequence of operations over the refined model; none when a
get_next_results call raises. -/
def runOps_r (fs : FSR α) : List (Op α) → Option (FSR α)
  | [] => some fs
  | Op.store d results page_size :: rest =>
    runOps_r (store_search_results_r fs results page_size d).2 rest
  | Op.next d count :: rest =>
    match get_next_results_r fs count d with
    | (none, _) => none
    | (some _, fs1) => runOps_r fs1 rest
  | Op.reset d :: rest => runOps_r (reset_pagination_r fs d) rest

/-- The operation's partition key avoids the two literals the
legacy-format check keys on. -/
def reservedFree : Op α → Prop
  | .store d _ _ => d ≠ "offset" ∧ d ≠ "total_results"
  | .next d _ => d ≠ "offset" ∧ d ≠ "total_results"
  | .reset d => d ≠ "offset" ∧ d ≠ "total_results"

instance reservedFreeDecidable (op : Op α) : Decidable (reservedFree op) :=
  match op with
  | .store d _ _ => inferInstanceAs (Decidable (d ≠ "offset" ∧ d ≠ "total_results"))
  | .next d _ => inferInstanceAs (Decidable (d ≠ "offset" ∧ d ≠ "total_results"))
  | .reset d => inferInstanceAs (Decidable (d ≠ "offset" ∧ d ≠ "total_results"))

/-- The pagination file does not hold both top-level keys "offset" and
"total_results" — the condition under which reads and writes shape-sniff
the legacy format. -/
def noReservedPair (f : PFileR) : Prop :=
  match f with
  | .content (.obj entries) =>
    ¬(jHasKey entries "offset" = true ∧ jHasKey entries "total_results" = true)
  | _ => True

/-- A well-formed stored cursor: the object {"offset": o,
"total_results": t} with 0 ≤ o ≤ t. -/
def goodCursor (j : PJson) : Prop :=
  ∃ o t : Int, j = cursorObj o t ∧ 0 ≤ o ∧ o ≤ t

/-- The benign pagination-file states: no legacy pair among the
top-level keys and every stored entry a well-formed cursor.  A missing,
unreadable or non-object file is benign: reads give the default and
writes start from the empty dict. -/
def BenignPag (f : PFileR) : Prop :=
  match f with
  | .missing => True
  | .corrupt => True
  | .content (.num _) => True
  | .content (.obj entries) =>
    (¬(jHasKey entries "offset" = true ∧ jHasKey entries "total_results" = true)) ∧
    ∀ p ∈ entries, goodCursor p.2

/-- One catalog row as utils.py search_perfumes materialises it from the
database (the sqlite fetch and the json.loads decoding of the note lists
are the environment; a row arrives as this record). -/
structure Perfume where
  name : String
  topNotes : List String
  middleNotes : List String
  baseNotes : List String
  mainAccords : List String
  gender : List String
deriving DecidableEq, Repr

/-- The filters mapping passed to search_perfumes (models.py
PerfumeFilter / the JSON arguments of the tool call): each key optional. -/
structure Filters where
  top_notes : Option String
  middle_notes : Option String
  base_notes : Option String
  main_accords : Option String
  gender : Option String
deriving DecidableEq, Repr

/-- Python truthiness of filters.get(key) for an optional string field:
absent and empty strings are falsy. -/
def truthy : Option String → Bool
  | none => false
  | some s => !(s == "")

/-- The model of Python str.lower(): lowercase every character
(extensionally the same as String.toLower, written over the character
data so that it evaluates). -/
def py_lower (s : String) : String :=
  ⟨s.data.map Char.toLower⟩

/-- utils.py search_perfumes has_all: every target, lowercased, occurs in
the lowercased source list. -/
def has_all (source_list targets : List String) : Bool :=
  targets.all (fun t => (source_list.map py_lower).contains (py_lower t))

/-- [x.strip() for x in value.split(",")] of a filter value. -/
def split_required (s : String) : List String :=
  (s.splitOn ",").map String.trim

/-- One note/accord filter clause of search_perfumes: skipped when the
filter value is falsy, else has_all over the comma-separated required
values. -/
def note_clause_ok (fval : Option String) (source_list : List String) : Bool :=
  if truthy fval then has_all source_list (split_required (fval.getD "")) else true

/-- The gender clause of search_perfumes: when the gender filter is
truthy, lowercase it; an item fails when the filter is "men" and the
lowercased gender list differs from ["men"], likewise for "women"; any
other gender value imposes no constraint. -/
def gender_clause_ok (filters : Filters) (item : Perfume) : Bool :=
  if truthy filters.gender then
    let required_gender := py_lower (filters.gender.getD "")
    let db_gender := item.gender.map py_lower
    if required_gender == "men" && db_gender != ["men"] then false
    else if required_gender == "women" && db_gender != ["women"] then false
    else true
  else true

/-- The full match flag computed by the loop body of search_perfumes. -/
def matches_filters (filters : Filters) (item : Perfume) : Bool :=
  note_clause_ok filters.top_notes item.topNotes &&
  note_clause_ok filters.middle_notes item.middleNotes &&
  note_clause_ok filters.base_notes item.baseNotes &&
  note_clause_ok filters.main_accords item.mainAccords &&
  gender_clause_ok filters item

/-- utils.py search_perfumes (same filtering code in src/chatbot.py):
keeps, in row order, the rows whose match flag stays true. -/
def search_perfumes (rows : List Perfume) (filters : Filters) : List Perfume :=
  rows.filter (fun item => matches_filters filters item)

/-- The fixed system prompt utils.py get_conversation seeds a new
conversation with. -/
def systemPromptText : String := "
            You are a perfume recommendation assistant.

            ## TOOL USAGE RULES
            - You MUST call `search_perfumes` whenever the user asks for perfume recommendations or changes preferences (notes, gender, budget, brand, season, longevity, etc).
            - You MUST call `get_next_results` when the user says: \"more\", \"show more\", \"next\", \"another 5\", or similar.
            - Do NOT regenerate, modify, assume, enrich, invent, or supplement data returned by tools.
            - Do NOT create fake links, prices, product details, availability, stores, reviews, or explanations.
            - Do NOT recommend items that are not returned by the tools.
            - Do NOT answer perfume queries without using a tool.
            - After a new `search_perfumes` call, overwrite previous results and return ONLY the first 5 from the tool response.
            - After `get_next_results`, return ONLY the next 5 from the tool response.
            - If a field is missing in the tool response, output it as: `Not available`.

            ## RESPONSE RULES
            - Keep responses concise and structured.
            - Only display data exactly as received from the tools.
            - Do not summarize, infer, or add opinions.
            - Do not hallucinate URLs, product pages, or external references.
            - If the user asks something outside the returned data (e.g., “give me a link”, “is it in stock?”, “is it better?”), respond:
            **\"Sorry, I only show information available in my database.\"**

            ## MEMORY RULES
            - Remember user preferences only to apply them in the next tool call.
            - Do not store or repeat information that was not provided by tools or the user.

            Proceed strictly with these rules.
            "

/-- A tool invocation the model can emit towards chat_endpoint. -/
inductive ToolInvocation where
  | search (filters : Filters) : ToolInvocation
  | nextResults (count : Int) : ToolInvocation
  | other (func_name : String) : ToolInvocation
deriving DecidableEq, Repr

/-- One transcript message, as routes.py builds them: the seeded system
prompt, user input, a plain assistant reply, the assistant message
carrying a tool call, or a tool-result message (whose JSON content holds
matched_perfumes, returned_count and remaining_count). -/
inductive Message where
  | system (content : String) : Message
  | user (content : String) : Message
  | assistantText (content : String) : Message
  | assistantToolCall (tool_call_id : String) (inv : ToolInvocation) : Message
  | toolResult (tool_call_id : String) (matched_perfumes : List String)
      (returned_count : Int) (remaining_count : Int) : Message
deriving DecidableEq, Repr

/-- The mutable process state utils.py touches: the in-memory
conversation_states dict plus the two persisted JSON files. -/
structure AppState (α : Type) where
  conversation_states : List (String × List Message)
  files : FS α
deriving DecidableEq, Repr

/-- utils.py get_conversation: return the stored transcript, seeding an
unseen conversation id with the fixed system prompt.  No other state is
touched (in particular the pagination files pass through unchanged). -/
def get_conversation (st : AppState α) (conversation_id : String) :
    List Message × AppState α :=
  match lookupA st.conversation_states conversation_id with
  | some conv => (conv, st)
  | none =>
    let seeded := [Message.system systemPromptText]
    (seeded, { st with conversation_states := upsert st.conversation_states conversation_id seeded })

/-- utils.py update_conversation: overwrite the stored transcript. -/
def update_conversation (st : AppState α) (conversation_id : String)
    (conversation : List Message) : AppState α :=
  { st with conversation_states := upsert st.conversation_states conversation_id conversation }

/-- models.py ChatRequest. -/
structure ChatRequest where
  message : String
  conversation_id : Option String
  device_id : Option String
deriving DecidableEq, Repr

/-- models.py ChatResponse. -/
structure ChatResponse where
  response : String
  conversation_id : String
  matched_perfumes : Option (List String)
  returned_count : Option Int
  remaining_count : Option Int
deriving DecidableEq, Repr

/-- The first reply of the external model inside chat_endpoint: either a
plain content message (no tool call) or exactly one tool call. -/
inductive AssistantTurn where
  | plain (content : String) : AssistantTurn
  | tool (tool_call_id : String) (inv : ToolInvocation) : AssistantTurn
deriving DecidableEq, Repr

/-- routes.py chat_endpoint, success path, with the external pieces as
parameters: fresh_id for create_conversation_id, rows for the catalog
the sqlite database would supply, turn for the first model reply and
final_reply for the second.  Faithful to lines 20 to 163: the
conversation is fetched and seeded, the user message appended, the tool
call (if any) dispatched — store_search_results with page_size 5,
get_next_results with the requested count, an unknown tool treated as a
no-op — the tool result and final reply appended, and the transcript
stored back.  All pagination helpers are invoked with their default
partition key "default"; request.device_id is never consulted. -/
def chat_endpoint (request : ChatRequest) (fresh_id : String)
    (rows : List Perfume) (turn : AssistantTurn) (final_reply : String)
    (st : AppState Perfume) : ChatResponse × AppState Perfume :=
  let conversation_id := request.conversation_id.getD fresh_id
  let r0 := get_conversation st conversation_id
  let st0 := r0.2
  let conversation := r0.1 ++ [Message.user request.message]
  match turn with
  | .plain content =>
    let conversation := conversation ++ [Message.assistantText content]
    let st1 := update_conversation st0 conversation_id conversation
    ({ response := content, conversation_id := conversation_id,
       matched_perfumes := none, returned_count := none, remaining_count := none }, st1)
  | .tool tool_call_id inv =>
    let conversation := conversation ++ [Message.assistantToolCall tool_call_id inv]
    match inv with
    | .search filters =>
      let results := search_perfumes rows filters
      let r1 := store_search_results st0.files results 5 "default"
      let first_batch := r1.1
      let fs1 := r1.2
      let remaining_count := get_remaining_count fs1 "default"
      let matched_perfumes := first_batch.map Perfume.name
      let returned_count : Int := first_batch.length
      let conversation := conversation ++
        [Message.toolResult tool_call_id matched_perfumes returned_count remaining_count,
         Message.assistantText final_reply]
      let st1 := update_conversation { st0 with files := fs1 } conversation_id conversation
      ({ response := final_reply, conversation_id := conversation_id,
         matched_perfumes := some matched_perfumes,
         returned_count := some returned_count,
         remaining_count := some remaining_count }, st1)
    | .nextResults count =>
      let r1 := get_next_results st0.files count "default"
      let next_batch := r1.1
      let fs1 := r1.2
      let matched_perfumes := next_batch.map Perfume.name
      let returned_count : Int := next_batch.length
      let remaining_count := get_remaining_count fs1 "default"
      let conversation := conversation ++
        [Message.toolResult tool_call_id matched_perfumes returned_count remaining_count,
         Message.assistantText final_reply]
      let st1 := update_conversation { st0 with files := fs1 } conversation_id conversation
      ({ response := final_reply, conversation_id := conversation_id,
         matched_perfumes := some matched_perfumes,
         returned_count := some returned_count,
         remaining_count := some remaining_count }, st1)
    | .other _ =>
      let conversation := conversation ++
        [Message.toolResult tool_call_id [] 0 (get_remaining_count st0.files "default"),
         Message.assistantText final_reply]
      let st1 := update_conversation st0 conversation_id conversation
      ({ response := final_reply, conversation_id := conversation_id,
         matched_perfumes := none, returned_count := none, remaining_count := none }, st1)

/-! ## Basic laws of the association-list store and of Python slicing -/

theorem lookupA_upsert_self (m : List (String × α)) (k : String) (v : α) :
    lookupA (upsert m k v) k = some v := by
  induction m with
  | nil => simp [upsert, lookupA]
  | cons hd t ih =>
    obtain ⟨k1, v1⟩ := hd
    by_cases hk : k1 = k
    · simp [upsert, hk, lookupA]
    · simp [upsert, hk, lookupA, ih]

theorem lookupA_upsert_ne (m : List (String × α)) (k k' : String) (v : α)
    (h : k ≠ k') : lookupA (upsert m k v) k' = lookupA m k' := by
  induction m with
  | nil => simp [upsert, lookupA, h]
  | cons hd t ih =>
    obtain ⟨k1, v1⟩ := hd
    by_cases hk : k1 = k
    · subst hk; simp [upsert, lookupA, h]
    · simp [upsert, hk, lookupA, ih]

theorem pyIndex_of_nonneg_le (n i : Int) (h0 : 0 ≤ i) (hn : i ≤ n) :
    pyIndex n i = i := by
  unfold pyIndex
  rw [if_neg (by omega), min_eq_left hn]

theorem pySlice_same (l : List α) (i : Int) : pySlice l i i = [] := by
  simp [pySlice]

theorem pySlice_eq_drop_take (l : List α) (i j : Int) (h0 : 0 ≤ i)
    (hij : i ≤ j) (hj : j ≤ (l.length : Int)) :
    pySlice l i j = (l.drop i.toNat).take (j - i).toNat := by
  simp only [pySlice]
  rw [pyIndex_of_nonneg_le _ _ h0 (le_trans hij hj),
    pyIndex_of_nonneg_le _ _ (le_trans h0 hij) hj]

theorem pySlice_zero (l : List α) (k : Int) (hk : 0 ≤ k) :
    pySlice l 0 k = l.take k.toNat := by
  simp only [pySlice, pyIndex]
  rw [if_neg (by omega : ¬ (0:Int) < 0), if_neg (by omega : ¬ k < 0),
    min_eq_left (by exact_mod_cast Nat.zero_le l.length : (0:Int) ≤ (l.length : Int))]
  simp only [Int.toNat_zero, List.drop_zero, Int.sub_zero]
  rw [List.take_eq_take]
  omega

theorem mem_pySlice (l : List α) (i j : Int) (x : α)
    (hx : x ∈ pySlice l i j) : x ∈ l := by
  simp only [pySlice] at hx
  exact ((List.take_sublist _ _).trans (List.drop_sublist _ _)).mem hx

/-! ## Read/write laws of the two persisted stores -/

theorem read_intermediate_write_self (fs : FS α) (l : List α) (d : String) :
    read_intermediate (write_intermediate fs l d) d = l := by
  simp [read_intermediate, write_intermediate, lookupA_upsert_self]

theorem read_intermediate_write_ne (fs : FS α) (l : List α) (d d' : String)
    (h : d ≠ d') :
    read_intermediate (write_intermediate fs l d) d' = read_intermediate fs d' := by
  obtain ⟨i, p⟩ := fs
  cases i with
  | missing =>
    simp [read_intermediate, write_intermediate, iFileEntries,
      lookupA_upsert_ne _ _ _ _ h, lookupA, h]
  | corrupt =>
    simp [read_intermediate, write_intermediate, iFileEntries,
      lookupA_upsert_ne _ _ _ _ h, lookupA, h]
  | legacy data =>
    by_cases hd : d' = "default"
    · subst hd
      simp [read_intermediate, write_intermediate, iFileEntries,
        lookupA_upsert_ne _ _ _ _ h, lookupA]
    · simp [read_intermediate, write_intermediate, iFileEntries,
        lookupA_upsert_ne _ _ _ _ h, lookupA, hd, Ne.symm hd]
  | byDevice entries =>
    simp [read_intermediate, write_intermediate, iFileEntries,
      lookupA_upsert_ne _ _ _ _ h]

theorem read_pagination_write_self (fs : FS α) (o t : Int) (d : String) :
    read_pagination_state (write_pagination_state fs o t d) d =
      { offset := o, total_results := t } := by
  simp [read_pagination_state, write_pagination_state, lookupA_upsert_self]

theorem read_pagination_write_ne (fs : FS α) (o t : Int) (d d' : String)
    (h : d ≠ d') :
    read_pagination_state (write_pagination_state fs o t d) d' =
      read_pagination_state fs d' := by
  obtain ⟨i, p⟩ := fs
  cases p with
  | missing =>
    simp [read_pagination_state, write_pagination_state, pFileEntries,
      lookupA_upsert_ne _ _ _ _ h, lookupA, h]
  | corrupt =>
    simp [read_pagination_state, write_pagination_state, pFileEntries,
      lookupA_upsert_ne _ _ _ _ h, lookupA, h]
  | legacy st =>
    by_cases hd : d' = "default"
    · subst hd
      simp [read_pagination_state, write_pagination_state, pFileEntries,
        lookupA_upsert_ne _ _ _ _ h, lookupA]
    · simp [read_pagination_state, write_pagination_state, pFileEntries,
        lookupA_upsert_ne _ _ _ _ h, lookupA, hd, Ne.symm hd]
  | byDevice entries =>
    simp [read_pagination_state, write_pagination_state, pFileEntries,
      lookupA_upsert_ne _ _ _ _ h]

theorem read_intermediate_write_pag (fs : FS α) (o t : Int) (d d' : String) :
    read_intermediate (write_pagination_state fs o t d) d' =
      read_intermediate fs d' := rfl

theorem read_pagination_write_inter (fs : FS α) (l : List α) (d d' : String) :
    read_pagination_state (write_intermediate fs l d) d' =
      read_pagination_state fs d' := rfl

theorem read_intermediate_get_next (fs : FS α) (c : Int) (d d' : String) :
    read_intermediate (get_next_results fs c d).2 d' = read_intermediate fs d' := by
  simp only [get_next_results]
  split
  · rfl
  · exact read_intermediate_write_pag _ _ _ _ _

/-! ## Operational characterisations of the engine operations -/

theorem get_next_results_of_guard (fs : FS α) (c : Int) (d : String)
    (h : (read_intermediate fs d).length = 0 ∨
      ((read_intermediate fs d).length : Int) ≤ (read_pagination_state fs d).offset) :
    get_next_results fs c d = ([], fs) := by
  simp only [get_next_results]
  rw [if_pos h]

theorem get_next_batch_of_not_guard (fs : FS α) (c : Int) (d : String)
    (h : ¬((read_intermediate fs d).length = 0 ∨
      ((read_intermediate fs d).length : Int) ≤ (read_pagination_state fs d).offset)) :
    (get_next_results fs c d).1 =
      pySlice (read_intermediate fs d) (read_pagination_state fs d).offset
        (min ((read_pagination_state fs d).offset + c)
          ((read_intermediate fs d).length : Int)) := by
  simp only [get_next_results]
  rw [if_neg h]

theorem get_next_state_of_not_guard (fs : FS α) (c : Int) (d : String)
    (h : ¬((read_intermediate fs d).length = 0 ∨
      ((read_intermediate fs d).length : Int) ≤ (read_pagination_state fs d).offset)) :
    (get_next_results fs c d).2 =
      write_pagination_state fs
        (min ((read_pagination_state fs d).offset + c)
          ((read_intermediate fs d).length : Int))
        ((read_intermediate fs d).length : Int) d := by
  simp only [get_next_results]
  rw [if_neg h]

theorem read_intermediate_store (fs : FS α) (results : List α) (ps : Int)
    (d : String) :
    read_intermediate (store_search_results fs results ps d).2 d = results := by
  simp only [store_search_results, reset_pagination]
  rw [read_intermediate_write_pag, read_intermediate_write_pag,
    read_intermediate_write_self]

theorem read_pagination_store (fs : FS α) (results : List α) (ps : Int)
    (d : String) :
    read_pagination_state (store_search_results fs results ps d).2 d =
      { offset := ps, total_results := (results.length : Int) } := by
  simp only [store_search_results, reset_pagination]
  rw [read_pagination_write_self]

theorem first_batch_store (fs : FS α) (results : List α) (ps : Int)
    (d : String) :
    (store_search_results fs results ps d).1 = pySlice results 0 ps := rfl

theorem read_intermediate_store_ne (fs : FS α) (results : List α) (ps : Int)
    (d d' : String) (h : d ≠ d') :
    read_intermediate (store_search_results fs results ps d).2 d' =
      read_intermediate fs d' := by
  simp only [store_search_results, reset_pagination]
  rw [read_intermediate_write_pag, read_intermediate_write_pag,
    read_intermediate_write_ne _ _ _ _ h]

theorem read_pagination_store_ne (fs : FS α) (results : List α) (ps : Int)
    (d d' : String) (h : d ≠ d') :
    read_pagination_state (store_search_results fs results ps d).2 d' =
      read_pagination_state fs d' := by
  simp only [store_search_results, reset_pagination]
  rw [read_pagination_write_ne _ _ _ _ _ h, read_pagination_write_ne _ _ _ _ _ h,
    read_pagination_write_inter]

theorem read_pagination_get_next_ne (fs : FS α) (c : Int) (d d' : String)
    (h : d ≠ d') :
    read_pagination_state (get_next_results fs c d).2 d' =
      read_pagination_state fs d' := by
  by_cases hg : (read_intermediate fs d).length = 0 ∨
      ((read_intermediate fs d).length : Int) ≤ (read_pagination_state fs d).offset
  · rw [get_next_results_of_guard fs c d hg]
  · rw [get_next_state_of_not_guard fs c d hg,
      read_pagination_write_ne _ _ _ _ _ h]

theorem read_intermediate_reset (fs : FS α) (d d' : String) :
    read_intermediate (reset_pagination fs d) d' = read_intermediate fs d' := rfl

theorem read_pagination_reset_ne (fs : FS α) (d d' : String) (h : d ≠ d') :
    read_pagination_state (reset_pagination fs d) d' = read_pagination_state fs d' :=
  read_pagination_write_ne _ _ _ _ _ h

theorem get_remaining_congr (fs fs' : FS α) (d : String)
    (hi : read_intermediate fs' d = read_intermediate fs d)
    (hp : read_pagination_state fs' d = read_pagination_state fs d) :
    get_remaining_count fs' d = get_remaining_count fs d := by
  simp only [get_remaining_count, hi, hp]

theorem get_conversation_files (st : AppState α) (conversation_id : String) :
    (get_conversation st conversation_id).2.files = st.files := by
  cases hl : lookupA st.conversation_states conversation_id <;>
    simp [get_conversation, hl]

theorem update_conversation_files (st : AppState α) (conversation_id : String)
    (conversation : List Message) :
    (update_conversation st conversation_id conversation).files = st.files := rfl

/-! ## Draining a stored result set -/

theorem drain_join_eq_drop (c : Int) (hc : 0 < c) (d : String) (items : List α) :
    ∀ (n : Nat) (fs : FS α), read_intermediate fs d = items →
      0 ≤ (read_pagination_state fs d).offset →
      (items.length : Int) ≤ (read_pagination_state fs d).offset + (n : Int) * c →
      (drain fs c d n).flatten = items.drop (read_pagination_state fs d).offset.toNat := by
  intro n
  induction n with
  | zero =>
    intro fs hi h0 hn
    simp only [Nat.cast_zero, zero_mul, add_zero] at hn
    simp only [drain, List.flatten_nil]
    rw [eq_comm, List.drop_eq_nil_iff]
    omega
  | succ m ih =>
    intro fs hi h0 hn
    have hmc : (0:Int) ≤ (m : Int) * c :=
      mul_nonneg (Int.natCast_nonneg m) (le_of_lt hc)
    have hsucc : ((m + 1 : Nat) : Int) * c = (m : Int) * c + c := by push_cast; ring
    by_cases hg : (read_intermediate fs d).length = 0 ∨
        ((read_intermediate fs d).length : Int) ≤ (read_pagination_state fs d).offset
    · have hr := get_next_results_of_guard fs c d hg
      have hlen : (items.length : Int) ≤ (read_pagination_state fs d).offset := by
        rw [hi] at hg
        rcases hg with h1 | h1
        · omega
        · exact h1
      simp only [drain, hr, List.flatten_cons, List.nil_append]
      exact ih fs hi h0 (by omega)
    · have hb := get_next_batch_of_not_guard fs c d hg
      have hs := get_next_state_of_not_guard fs c d hg
      rw [hi] at hb hs hg
      push_neg at hg
      obtain ⟨hne, hlt⟩ := hg
      have hoe : (read_pagination_state fs d).offset ≤
          min ((read_pagination_state fs d).offset + c) ((items.length : Int)) := by omega
      have hel : min ((read_pagination_state fs d).offset + c) ((items.length : Int)) ≤
          (items.length : Int) := min_le_right _ _
      have h0e : 0 ≤ min ((read_pagination_state fs d).offset + c) ((items.length : Int)) := by
        omega
      have hi2 : read_intermediate (get_next_results fs c d).2 d = items := by
        rw [read_intermediate_get_next, hi]
      have hp2o : (read_pagination_state (get_next_results fs c d).2 d).offset =
          min ((read_pagination_state fs d).offset + c) ((items.length : Int)) := by
        rw [hs, read_pagination_write_self]
      have hbound : (items.length : Int) ≤
          (read_pagination_state (get_next_results fs c d).2 d).offset + (m : Int) * c := by
        rw [hp2o]
        rw [hsucc] at hn
        rcases le_total ((read_pagination_state fs d).offset + c) ((items.length : Int)) with
          hcase | hcase
        · rw [min_eq_left hcase]
          linarith
        · rw [min_eq_right hcase]
          linarith
      have hIH := ih (get_next_results fs c d).2 hi2 (by rw [hp2o]; exact h0e) hbound
      rw [hp2o] at hIH
      simp only [drain, List.flatten_cons]
      rw [hb, hIH,
        pySlice_eq_drop_take items _ _ h0 hoe hel]
      have htn : (min ((read_pagination_state fs d).offset + c) ((items.length : Int))).toNat =
          (read_pagination_state fs d).offset.toNat +
          (min ((read_pagination_state fs d).offset + c) ((items.length : Int)) -
            (read_pagination_state fs d).offset).toNat := by omega
      rw [htn, ← List.drop_drop, List.take_append_drop]

/-- C1: starting from a fresh store_search_results(items, page_size) on a
partition and draining it with a fixed count c > 0, the first page
concatenated with all subsequent results of get_next_results equals items
exactly — same order, nothing repeated, nothing omitted (after
items.length calls every further batch is empty, so the horizon n covers
all non-empty pages). -/
theorem store_then_drain_eq (fs : FS α) (d : String) (items : List α)
    (page_size c : Int) (hps : 0 ≤ page_size) (hc : 0 < c)
    (n : Nat) (hn : items.length ≤ n) :
    (store_search_results fs items page_size d).1 ++
      (drain (store_search_results fs items page_size d).2 c d n).flatten = items := by
  have hi : read_intermediate (store_search_results fs items page_size d).2 d = items :=
    read_intermediate_store fs items page_size d
  have hpo : (read_pagination_state (store_search_results fs items page_size d).2 d).offset =
      page_size := by
    rw [read_pagination_store]
  have hnc : (items.length : Int) ≤ (n : Int) * c := by
    calc (items.length : Int) ≤ (n : Int) := by exact_mod_cast hn
    _ ≤ (n : Int) * c := le_mul_of_one_le_right (Int.natCast_nonneg n) (by omega)
  have hdrain := drain_join_eq_drop c hc d items n
    (store_search_results fs items page_size d).2 hi
    (by rw [hpo]; exact hps) (by rw [hpo]; linarith)
  rw [hpo] at hdrain
  rw [first_batch_store, hdrain, pySlice_zero items page_size hps,
    List.take_append_drop]

/-- Witness for C1 at a concrete input: items [1,2,3], page size 2,
count 2, horizon 3, fresh files. -/
theorem store_then_drain_eq_witness :
    (0:Int) ≤ 2 ∧ (0:Int) < 2 ∧ ([1, 2, 3] : List Nat).length ≤ 3 ∧
    (store_search_results (⟨IFile.missing, PFile.missing⟩ : FS Nat) [1, 2, 3] 2 "default").1 ++
      (drain (store_search_results (⟨IFile.missing, PFile.missing⟩ : FS Nat) [1, 2, 3] 2 "default").2
        2 "default" 3).flatten = [1, 2, 3] :=
  ⟨by decide, by decide, by decide,
    store_then_drain_eq ⟨IFile.missing, PFile.missing⟩ "default" [1, 2, 3] 2 2
      (by decide) (by decide) 3 (by decide)⟩

/-! ## The cursor invariant (claim C2) -/

/-- C2 counterexample: one store_search_results with page_size 5 on a
one-item list, from the fresh state, writes the cursor
{offset 5, total 1}: offset ≤ total fails after the operation
completes. -/
theorem cursor_inv_counterexample :
    (read_pagination_state (([Op.store "default" [7] 5] : List (Op Nat)).foldl applyOp
        ⟨IFile.missing, PFile.missing⟩) "default").offset = 5 ∧
    (read_pagination_state (([Op.store "default" [7] 5] : List (Op Nat)).foldl applyOp
        ⟨IFile.missing, PFile.missing⟩) "default").total_results = 1 ∧
    ¬ ((read_pagination_state (([Op.store "default" [7] 5] : List (Op Nat)).foldl applyOp
        ⟨IFile.missing, PFile.missing⟩) "default").offset ≤
      (read_pagination_state (([Op.store "default" [7] 5] : List (Op Nat)).foldl applyOp
        ⟨IFile.missing, PFile.missing⟩) "default").total_results) := by
  decide

/-! ## Laws of the refined pagination-file model -/

theorem lookupA_mem (m : List (String × α)) (k : String) (v : α)
    (h : lookupA m k = some v) : (k, v) ∈ m := by
  induction m with
  | nil => simp [lookupA] at h
  | cons hd t ih =>
    obtain ⟨k1, v1⟩ := hd
    by_cases hk : k1 = k
    · subst hk
      have hv : v1 = v := by simpa [lookupA] using h
      subst hv
      exact List.mem_cons_self _ _
    · simp only [lookupA, if_neg hk] at h
      exact List.mem_cons_of_mem _ (ih h)

theorem mem_upsert (m : List (String × α)) (k : String) (v : α) (p : String × α)
    (hp : p ∈ upsert m k v) : p = (k, v) ∨ p ∈ m := by
  induction m with
  | nil =>
    simp only [upsert, List.mem_singleton] at hp
    exact Or.inl hp
  | cons hd t ih =>
    obtain ⟨k1, v1⟩ := hd
    by_cases hk : k1 = k
    · simp only [upsert, if_pos hk, List.mem_cons] at hp
      rcases hp with hp | hp
      · exact Or.inl hp
      · exact Or.inr (List.mem_cons_of_mem _ hp)
    · simp only [upsert, if_neg hk, List.mem_cons] at hp
      rcases hp with hp | hp
      · subst hp
        exact Or.inr (List.mem_cons_self _ _)
      · rcases ih hp with h1 | h1
        · exact Or.inl h1
        · exact Or.inr (List.mem_cons_of_mem _ h1)

theorem jHasKey_upsert_ne (m : List (String × PJson)) (k k' : String) (v : PJson)
    (h : k ≠ k') : jHasKey (upsert m k v) k' = jHasKey m k' := by
  simp only [jHasKey, lookupA_upsert_ne m k k' v h]

theorem and_eq_true_split (a b : Bool) (h : (a && b) = true) :
    a = true ∧ b = true := by
  simp only [Bool.and_eq_true] at h
  exact h

theorem and_eq_true_join (a b : Bool) (h : a = true ∧ b = true) :
    (a && b) = true := by
  simp only [Bool.and_eq_true]
  exact h

theorem jHasKey_pair_absent (entries : List (String × PJson)) (A : String)
    (c : PJson) (hA1 : A ≠ "offset") (hA2 : A ≠ "total_results")
    (h : ¬(jHasKey entries "offset" = true ∧ jHasKey entries "total_results" = true)) :
    ¬(jHasKey (upsert entries A c) "offset" = true ∧
      jHasKey (upsert entries A c) "total_results" = true) := by
  rw [jHasKey_upsert_ne _ _ _ _ hA1, jHasKey_upsert_ne _ _ _ _ hA2]
  exact h

theorem pagEntriesAfterLoad_pair_absent (f : PFileR) :
    ¬(jHasKey (pagEntriesAfterLoad f) "offset" = true ∧
      jHasKey (pagEntriesAfterLoad f) "total_results" = true) := by
  cases f with
  | missing => intro h; simpa [pagEntriesAfterLoad, jHasKey, lookupA] using h.1
  | corrupt => intro h; simpa [pagEntriesAfterLoad, jHasKey, lookupA] using h.1
  | content j =>
    cases j with
    | num n => intro h; simpa [pagEntriesAfterLoad, jHasKey, lookupA] using h.1
    | obj data =>
      by_cases hpair : (jHasKey data "offset" && jHasKey data "total_results") = true
      · intro h
        have h1 := h.1
        simp only [pagEntriesAfterLoad, if_pos hpair] at h1
        simp [jHasKey, lookupA,
          show ("default" : String) ≠ "offset" from by decide] at h1
      · simp only [pagEntriesAfterLoad]
        rw [if_neg hpair]
        intro h
        exact hpair (and_eq_true_join _ _ h)

theorem noReservedPair_write (f : PFileR) (o t : Int) (A : String)
    (hA1 : A ≠ "offset") (hA2 : A ≠ "total_results") :
    noReservedPair (write_pagination_state_json f o t A) :=
  jHasKey_pair_absent (pagEntriesAfterLoad f) A (cursorObj o t) hA1 hA2
    (pagEntriesAfterLoad_pair_absent f)

theorem read_pag_json_write_ne (f : PFileR) (o t : Int) (A B : String)
    (hAB : A ≠ B) (hA1 : A ≠ "offset") (hA2 : A ≠ "total_results")
    (hsafe : noReservedPair f) :
    read_pagination_state_json (write_pagination_state_json f o t A) B =
      read_pagination_state_json f B := by
  have hpa := jHasKey_pair_absent (pagEntriesAfterLoad f) A (cursorObj o t) hA1 hA2
    (pagEntriesAfterLoad_pair_absent f)
  simp only [write_pagination_state_json, read_pagination_state_json]
  rw [if_neg (fun hc => hpa (and_eq_true_split _ _ hc))]
  rw [lookupA_upsert_ne _ _ _ _ hAB]
  cases f with
  | missing => simp [pagEntriesAfterLoad, lookupA, read_pagination_state_json]
  | corrupt => simp [pagEntriesAfterLoad, lookupA, read_pagination_state_json]
  | content j =>
    cases j with
    | num n => simp [pagEntriesAfterLoad, lookupA, read_pagination_state_json]
    | obj data =>
      have hdp : ¬((jHasKey data "offset" && jHasKey data "total_results") = true) :=
        fun hc => hsafe (and_eq_true_split _ _ hc)
      simp only [pagEntriesAfterLoad, read_pagination_state_json]
      rw [if_neg hdp, if_neg hdp]

theorem read_pag_json_benign (f : PFileR) (hB : BenignPag f) (d : String) :
    ∃ o t : Int, read_pagination_state_json f d = cursorObj o t ∧ 0 ≤ o ∧ o ≤ t := by
  cases f with
  | missing => exact ⟨0, 0, rfl, le_rfl, le_rfl⟩
  | corrupt => exact ⟨0, 0, rfl, le_rfl, le_rfl⟩
  | content j =>
    cases j with
    | num n => exact ⟨0, 0, rfl, le_rfl, le_rfl⟩
    | obj data =>
      obtain ⟨hpair, hgood⟩ := hB
      have hdp : ¬((jHasKey data "offset" && jHasKey data "total_results") = true) :=
        fun hc => hpair (and_eq_true_split _ _ hc)
      simp only [read_pagination_state_json]
      rw [if_neg hdp]
      cases hl : lookupA data d with
      | none => exact ⟨0, 0, rfl, le_rfl, le_rfl⟩
      | some j =>
        obtain ⟨o, t, hj, h0, hot⟩ := hgood (d, j) (lookupA_mem data d j hl)
        have hj2 : j = cursorObj o t := hj
        exact ⟨o, t, by simp [hj2], h0, hot⟩

theorem benignPag_write (f : PFileR) (o t : Int) (d : String)
    (hd1 : d ≠ "offset") (hd2 : d ≠ "total_results")
    (h0 : 0 ≤ o) (hot : o ≤ t) (hB : BenignPag f) :
    BenignPag (write_pagination_state_json f o t d) := by
  refine ⟨jHasKey_pair_absent (pagEntriesAfterLoad f) d (cursorObj o t) hd1 hd2
    (pagEntriesAfterLoad_pair_absent f), ?_⟩
  intro p hp
  rcases mem_upsert _ _ _ _ hp with h | h
  · subst h
    exact ⟨o, t, rfl, h0, hot⟩
  · cases f with
    | missing => simp [pagEntriesAfterLoad] at h
    | corrupt => simp [pagEntriesAfterLoad] at h
    | content j =>
      cases j with
      | num n => simp [pagEntriesAfterLoad] at h
      | obj data =>
        obtain ⟨hpair, hgood⟩ := hB
        have hdp : ¬((jHasKey data "offset" && jHasKey data "total_results") = true) :=
          fun hc => hpair (and_eq_true_split _ _ hc)
        simp only [pagEntriesAfterLoad] at h
        rw [if_neg hdp] at h
        exact hgood p h

theorem benignPag_store_r (fs : FSR α) (results : List α) (ps : Int) (d : String)
    (hd1 : d ≠ "offset") (hd2 : d ≠ "total_results")
    (h0 : 0 ≤ ps) (hlen : ps ≤ (results.length : Int)) (hB : BenignPag fs.pag) :
    BenignPag (store_search_results_r fs results ps d).2.pag := by
  simp only [store_search_results_r, reset_pagination_r, write_intermediate_r]
  exact benignPag_write _ _ _ d hd1 hd2 h0 hlen
    (benignPag_write _ _ _ d hd1 hd2 le_rfl le_rfl hB)

theorem get_next_r_ok (fs : FSR α) (c : Int) (d : String)
    (hd1 : d ≠ "offset") (hd2 : d ≠ "total_results") (hc : 0 ≤ c)
    (hB : BenignPag fs.pag) :
    ∃ batch : List α, (get_next_results_r fs c d).1 = some batch ∧
      BenignPag (get_next_results_r fs c d).2.pag := by
  obtain ⟨o, t, hr, h0, hot⟩ := read_pag_json_benign fs.pag hB d
  simp only [get_next_results_r, hr]
  simp only [show jLookup (cursorObj o t) "offset" = some (PJson.num o) from rfl]
  split
  · exact ⟨[], rfl, hB⟩
  · split
    · exact ⟨[], rfl, hB⟩
    · exact ⟨_, rfl, benignPag_write fs.pag _ _ d hd1 hd2 (by omega)
        (min_le_right _ _) hB⟩

/-- C2 (amended): from any benign starting state (the fresh state is
benign) and for every sequence of operations whose arguments are in the
normal calling range — store_search_results with 0 ≤ page_size ≤
len(results), get_next_results with count ≥ 0, reset_pagination — and
whose partition keys avoid the two reserved literals "offset" and
"total_results" that the legacy-format detection keys on, no operation
raises, and after the sequence every partition's stored cursor is the
well-formed object {offset, total_results} with 0 ≤ offset ≤ total.
With arbitrary arguments the invariant fails (see the counterexample);
with reserved partition keys the legacy misdetection can nest a
malformed cursor under "default" (see the C6 counterexample). -/
theorem cursor_inv_preserved_refined (fs : FSR α) (ops : List (Op α))
    (hB : BenignPag fs.pag)
    (hops : ∀ op ∈ ops, goodOp op ∧ reservedFree op) :
    ∃ fs' : FSR α, runOps_r fs ops = some fs' ∧ BenignPag fs'.pag ∧
      ∀ d : String, ∃ offset total : Int,
        read_pagination_state_json fs'.pag d = cursorObj offset total ∧
        0 ≤ offset ∧ offset ≤ total := by
  induction ops generalizing fs with
  | nil => exact ⟨fs, rfl, hB, fun d => read_pag_json_benign fs.pag hB d⟩
  | cons op rest ih =>
    obtain ⟨hop, hres⟩ := hops op (List.mem_cons_self op rest)
    have hrest : ∀ o ∈ rest, goodOp o ∧ reservedFree o :=
      fun o ho => hops o (List.mem_cons_of_mem op ho)
    cases op with
    | store d results ps =>
      obtain ⟨h0, hlen⟩ := hop
      obtain ⟨hd1, hd2⟩ := hres
      have hB2 : BenignPag (store_search_results_r fs results ps d).2.pag :=
        benignPag_store_r fs results ps d hd1 hd2 h0 hlen hB
      obtain ⟨fs', hrun, hBf, hinv⟩ :=
        ih (store_search_results_r fs results ps d).2 hB2 hrest
      refine ⟨fs', ?_, hBf, hinv⟩
      simpa only [runOps_r] using hrun
    | next d c =>
      obtain ⟨hd1, hd2⟩ := hres
      have hc : (0:Int) ≤ c := hop
      obtain ⟨batch, hbatch, hB2⟩ := get_next_r_ok fs c d hd1 hd2 hc hB
      have hsplit : get_next_results_r fs c d =
          (some batch, (get_next_results_r fs c d).2) := by
        rw [← hbatch]
      obtain ⟨fs', hrun, hBf, hinv⟩ := ih (get_next_results_r fs c d).2 hB2 hrest
      refine ⟨fs', ?_, hBf, hinv⟩
      simp only [runOps_r]
      rw [hsplit]
      exact hrun
    | reset d =>
      obtain ⟨hd1, hd2⟩ := hres
      have hB2 : BenignPag (reset_pagination_r fs d).pag :=
        benignPag_write _ _ _ d hd1 hd2 le_rfl le_rfl hB
      obtain ⟨fs', hrun, hBf, hinv⟩ := ih (reset_pagination_r fs d) hB2 hrest
      refine ⟨fs', ?_, hBf, hinv⟩
      simpa only [runOps_r] using hrun

/-- Witness for C2 (amended) at a concrete input: a store of two items
with page size 1 followed by a next with count 1, from the fresh
state. -/
theorem cursor_inv_preserved_refined_witness :
    BenignPag (⟨IFile.missing, PFileR.missing⟩ : FSR Nat).pag ∧
    (∀ op ∈ ([Op.store "default" [1, 2] 1, Op.next "default" 1] : List (Op Nat)),
      goodOp op ∧ reservedFree op) ∧
    (∃ fs' : FSR Nat,
      runOps_r (⟨IFile.missing, PFileR.missing⟩ : FSR Nat)
        [Op.store "default" [1, 2] 1, Op.next "default" 1] = some fs' ∧
      BenignPag fs'.pag ∧
      ∀ d : String, ∃ offset total : Int,
        read_pagination_state_json fs'.pag d = cursorObj offset total ∧
        0 ≤ offset ∧ offset ≤ total) :=
  ⟨trivial, by decide,
    cursor_inv_preserved_refined ⟨IFile.missing, PFileR.missing⟩
      [Op.store "default" [1, 2] 1, Op.next "default" 1] trivial (by decide)⟩

/-! ## Behaviour on an exhausted or empty result set (claims C3 and C4) -/

/-- C3 counterexample: after store_search_results([1,2,3], 3) and then
reset_pagination, the cursor is {offset 0, total 0}, so offset ≥ total
holds while three stored results remain; get_next_results(2) then
returns [1,2] and advances the cursor to 2 instead of returning an empty
sequence and leaving the cursor unchanged. -/
theorem next_after_reset_counterexample :
    (read_pagination_state (reset_pagination
        (store_search_results (⟨IFile.missing, PFile.missing⟩ : FS Nat) [1, 2, 3] 3 "default").2
        "default") "default").total_results ≤
      (read_pagination_state (reset_pagination
        (store_search_results (⟨IFile.missing, PFile.missing⟩ : FS Nat) [1, 2, 3] 3 "default").2
        "default") "default").offset ∧
    (get_next_results (reset_pagination
        (store_search_results (⟨IFile.missing, PFile.missing⟩ : FS Nat) [1, 2, 3] 3 "default").2
        "default") 2 "default").1 = [1, 2] ∧
    (read_pagination_state (get_next_results (reset_pagination
        (store_search_results (⟨IFile.missing, PFile.missing⟩ : FS Nat) [1, 2, 3] 3 "default").2
        "default") 2 "default").2 "default").offset = 2 := by
  decide

/-- C3 (amended): if the stored result list is empty or offset ≥
len(ResultSet), get_next_results returns an empty sequence and returns
the persisted state unchanged (so the cursor keeps both its offset and
total and repeated calls keep behaving identically), and the remaining
count is 0.  The disjunct offset ≥ total of the original claim does not
guard the code: see the counterexample. -/
theorem next_exhausted_empty (fs : FS α) (c : Int) (d : String)
    (h : read_intermediate fs d = [] ∨
      ((read_intermediate fs d).length : Int) ≤ (read_pagination_state fs d).offset) :
    get_next_results fs c d = ([], fs) ∧ get_remaining_count fs d = 0 := by
  have hg : (read_intermediate fs d).length = 0 ∨
      ((read_intermediate fs d).length : Int) ≤ (read_pagination_state fs d).offset := by
    rcases h with h1 | h1
    · exact Or.inl (by rw [h1]; rfl)
    · exact Or.inr h1
  refine ⟨get_next_results_of_guard fs c d hg, ?_⟩
  simp only [get_remaining_count]
  rcases hg with h1 | h1
  · rw [if_pos h1]
  · by_cases h2 : (read_intermediate fs d).length = 0
    · rw [if_pos h2]
    · rw [if_neg h2]
      omega

/-- Witness for C3 (amended) at a concrete input: one stored item with
the cursor already at offset 1. -/
theorem next_exhausted_empty_witness :
    (read_intermediate (⟨IFile.byDevice [("default", [1])],
        PFile.byDevice [("default", ⟨1, 1⟩)]⟩ : FS Nat) "default" = [] ∨
      (((read_intermediate (⟨IFile.byDevice [("default", [1])],
        PFile.byDevice [("default", ⟨1, 1⟩)]⟩ : FS Nat) "default").length : Int) ≤
        (read_pagination_state (⟨IFile.byDevice [("default", [1])],
          PFile.byDevice [("default", ⟨1, 1⟩)]⟩ : FS Nat) "default").offset)) ∧
    (get_next_results (⟨IFile.byDevice [("default", [1])],
        PFile.byDevice [("default", ⟨1, 1⟩)]⟩ : FS Nat) 5 "default" =
      ([], ⟨IFile.byDevice [("default", [1])], PFile.byDevice [("default", ⟨1, 1⟩)]⟩) ∧
      get_remaining_count (⟨IFile.byDevice [("default", [1])],
        PFile.byDevice [("default", ⟨1, 1⟩)]⟩ : FS Nat) "default" = 0) :=
  ⟨by decide,
    next_exhausted_empty (⟨IFile.byDevice [("default", [1])],
      PFile.byDevice [("default", ⟨1, 1⟩)]⟩ : FS Nat) 5 "default" (by decide)⟩

/-- C4 counterexample: with five stored results and the cursor at offset
0 (store with page_size 0), get_next_results with count -3 ≤ 0 returns
the non-empty batch [1,2] and rewrites the stored offset from 0 to -3:
Python slicing turns the negative end index into len-3. -/
theorem next_nonpositive_counterexample :
    (-3 : Int) ≤ 0 ∧
    (read_pagination_state (store_search_results
        (⟨IFile.missing, PFile.missing⟩ : FS Nat) [1, 2, 3, 4, 5] 0 "default").2
      "default").offset = 0 ∧
    (get_next_results (store_search_results
        (⟨IFile.missing, PFile.missing⟩ : FS Nat) [1, 2, 3, 4, 5] 0 "default").2
      (-3) "default").1 = [1, 2] ∧
    (read_pagination_state (get_next_results (store_search_results
        (⟨IFile.missing, PFile.missing⟩ : FS Nat) [1, 2, 3, 4, 5] 0 "default").2
      (-3) "default").2 "default").offset = -3 := by
  decide

/-- C4 (amended): for count = 0, get_next_results returns an empty
sequence and the stored offset is the same after the call as before it
(for negative counts the code can return items and move the cursor
backwards: see the counterexample). -/
theorem next_zero_count (fs : FS α) (d : String) :
    (get_next_results fs 0 d).1 = [] ∧
    (read_pagination_state (get_next_results fs 0 d).2 d).offset =
      (read_pagination_state fs d).offset := by
  by_cases hg : (read_intermediate fs d).length = 0 ∨
      ((read_intermediate fs d).length : Int) ≤ (read_pagination_state fs d).offset
  · rw [get_next_results_of_guard fs 0 d hg]
    exact ⟨rfl, rfl⟩
  · have hb := get_next_batch_of_not_guard fs 0 d hg
    have hs := get_next_state_of_not_guard fs 0 d hg
    push_neg at hg
    obtain ⟨h1, h2⟩ := hg
    have hmin : min ((read_pagination_state fs d).offset + 0)
        ((read_intermediate fs d).length : Int) = (read_pagination_state fs d).offset := by
      omega
    rw [hmin] at hb hs
    constructor
    · rw [hb, pySlice_same]
    · rw [hs, read_pagination_write_self]

/-! ## Partition isolation (claim C6) -/

theorem read_intermediate_r_write_ne (fs : FSR α) (l : List α) (d d' : String)
    (h : d ≠ d') :
    read_intermediate_r (write_intermediate_r fs l d) d' = read_intermediate_r fs d' := by
  obtain ⟨i, p⟩ := fs
  cases i with
  | missing =>
    simp [read_intermediate_r, write_intermediate_r, iFileEntries,
      lookupA_upsert_ne _ _ _ _ h, lookupA, h]
  | corrupt =>
    simp [read_intermediate_r, write_intermediate_r, iFileEntries,
      lookupA_upsert_ne _ _ _ _ h, lookupA, h]
  | legacy data =>
    by_cases hd : d' = "default"
    · subst hd
      simp [read_intermediate_r, write_intermediate_r, iFileEntries,
        lookupA_upsert_ne _ _ _ _ h, lookupA]
    · simp [read_intermediate_r, write_intermediate_r, iFileEntries,
        lookupA_upsert_ne _ _ _ _ h, lookupA, hd, Ne.symm hd]
  | byDevice entries =>
    simp [read_intermediate_r, write_intermediate_r, iFileEntries,
      lookupA_upsert_ne _ _ _ _ h]

theorem read_intermediate_r_get_next (fs : FSR α) (c : Int) (d d' : String) :
    read_intermediate_r (get_next_results_r fs c d).2 d' = read_intermediate_r fs d' := by
  simp only [get_next_results_r]
  split
  · rfl
  · split
    · rfl
    · split
      · rfl
      · split
        · rfl
        · rfl

theorem read_intermediate_r_store_ne (fs : FSR α) (results : List α) (ps : Int)
    (A B : String) (h : A ≠ B) :
    read_intermediate_r (store_search_results_r fs results ps A).2 B =
      read_intermediate_r fs B := by
  simp only [store_search_results_r, reset_pagination_r]
  exact read_intermediate_r_write_ne fs results A B h

theorem read_pag_json_next_ne (fs : FSR α) (c : Int) (A B : String)
    (hAB : A ≠ B) (hA1 : A ≠ "offset") (hA2 : A ≠ "total_results")
    (hsafe : noReservedPair fs.pag) :
    read_pagination_state_json (get_next_results_r fs c A).2.pag B =
      read_pagination_state_json fs.pag B := by
  simp only [get_next_results_r]
  split
  · rfl
  · split
    · rfl
    · split
      · rfl
      · split
        · rfl
        · exact read_pag_json_write_ne fs.pag _ _ A B hAB hA1 hA2 hsafe

theorem read_pag_json_store_ne (fs : FSR α) (results : List α) (ps : Int)
    (A B : String) (hAB : A ≠ B) (hA1 : A ≠ "offset") (hA2 : A ≠ "total_results")
    (hsafe : noReservedPair fs.pag) :
    read_pagination_state_json (store_search_results_r fs results ps A).2.pag B =
      read_pagination_state_json fs.pag B := by
  simp only [store_search_results_r, reset_pagination_r, write_intermediate_r]
  rw [read_pag_json_write_ne _ _ _ A B hAB hA1 hA2
      (noReservedPair_write fs.pag 0 0 A hA1 hA2),
    read_pag_json_write_ne _ _ _ A B hAB hA1 hA2 hsafe]

theorem get_remaining_r_congr (fs fs' : FSR α) (d : String)
    (hi : read_intermediate_r fs' d = read_intermediate_r fs d)
    (hp : read_pagination_state_json fs'.pag d = read_pagination_state_json fs.pag d) :
    get_remaining_count_r fs' d = get_remaining_count_r fs d := by
  simp only [get_remaining_count_r, hi, hp]

/-- C6 counterexample: the original claim is false.  From the fresh
state, store_search_results on partition "offset" stores the cursor
{offset 5, total 1} for it; then reset_pagination on the distinct
partition "total_results" makes the file hold both top-level keys
"offset" and "total_results", so the key-based legacy detection now
fires and reading partition "offset" returns the default {0, 0} instead
of its stored cursor — an operation on partition A changed the cursor
observed for partition B. -/
theorem partition_isolation_counterexample :
    ("total_results" : String) ≠ "offset" ∧
    read_pagination_state_json (store_search_results_r
        (⟨IFile.missing, PFileR.missing⟩ : FSR Nat) [7] 5 "offset").2.pag "offset" =
      cursorObj 5 1 ∧
    read_pagination_state_json (reset_pagination_r (store_search_results_r
        (⟨IFile.missing, PFileR.missing⟩ : FSR Nat) [7] 5 "offset").2
      "total_results").pag "offset" = cursorObj 0 0 ∧
    cursorObj 5 1 ≠ cursorObj 0 0 :=
  ⟨by decide, rfl, rfl, by simp [cursorObj]⟩

/-- C6 (amended): provided partition A avoids the two reserved literals
"offset" and "total_results" that the legacy-format detection keys on,
and the pagination file's top-level keys do not already include that
pair, executing store_search_results, get_next_results or
reset_pagination on A leaves the stored result set, the pagination-state
object and the remaining count observed for any distinct partition B
unchanged (get_remaining_count itself performs no write, so it trivially
preserves B as well).  Without the restriction an operation on A can
change B's cursor: see the counterexample. -/
theorem partition_isolation_refined (fs : FSR α) (A B : String) (h : A ≠ B)
    (hA1 : A ≠ "offset") (hA2 : A ≠ "total_results")
    (hsafe : noReservedPair fs.pag)
    (results : List α) (page_size count : Int) :
    (read_intermediate_r (store_search_results_r fs results page_size A).2 B =
        read_intermediate_r fs B ∧
      read_pagination_state_json (store_search_results_r fs results page_size A).2.pag B =
        read_pagination_state_json fs.pag B ∧
      get_remaining_count_r (store_search_results_r fs results page_size A).2 B =
        get_remaining_count_r fs B) ∧
    (read_intermediate_r (get_next_results_r fs count A).2 B = read_intermediate_r fs B ∧
      read_pagination_state_json (get_next_results_r fs count A).2.pag B =
        read_pagination_state_json fs.pag B ∧
      get_remaining_count_r (get_next_results_r fs count A).2 B =
        get_remaining_count_r fs B) ∧
    (read_intermediate_r (reset_pagination_r fs A) B = read_intermediate_r fs B ∧
      read_pagination_state_json (reset_pagination_r fs A).pag B =
        read_pagination_state_json fs.pag B ∧
      get_remaining_count_r (reset_pagination_r fs A) B = get_remaining_count_r fs B) := by
  have hstore_i := read_intermediate_r_store_ne fs results page_size A B h
  have hstore_p := read_pag_json_store_ne fs results page_size A B h hA1 hA2 hsafe
  have hnext_i := read_intermediate_r_get_next fs count A B
  have hnext_p := read_pag_json_next_ne fs count A B h hA1 hA2 hsafe
  have hreset_i : read_intermediate_r (reset_pagination_r fs A) B =
      read_intermediate_r fs B := rfl
  have hreset_p : read_pagination_state_json (reset_pagination_r fs A).pag B =
      read_pagination_state_json fs.pag B :=
    read_pag_json_write_ne fs.pag 0 0 A B h hA1 hA2 hsafe
  exact ⟨⟨hstore_i, hstore_p, get_remaining_r_congr fs _ B hstore_i hstore_p⟩,
    ⟨hnext_i, hnext_p, get_remaining_r_congr fs _ B hnext_i hnext_p⟩,
    ⟨hreset_i, hreset_p, get_remaining_r_congr fs _ B hreset_i hreset_p⟩⟩

/-- Witness for C6 (amended) at a concrete input: a store on the
non-reserved partition "a" leaves partition "b" unchanged, starting from
the fresh state. -/
theorem partition_isolation_refined_witness :
    ("a" : String) ≠ "b" ∧ ("a" : String) ≠ "offset" ∧
    ("a" : String) ≠ "total_results" ∧
    noReservedPair (⟨IFile.missing, PFileR.missing⟩ : FSR Nat).pag ∧
    read_intermediate_r (store_search_results_r (⟨IFile.missing, PFileR.missing⟩ : FSR Nat)
        [1] 1 "a").2 "b" = read_intermediate_r (⟨IFile.missing, PFileR.missing⟩ : FSR Nat) "b" :=
  ⟨by decide, by decide, by decide, trivial,
    (partition_isolation_refined (⟨IFile.missing, PFileR.missing⟩ : FSR Nat) "a" "b"
      (by decide) (by decide) (by decide) trivial [1] 1 1).1.1⟩

/-! ## A second store discards the first result set (claim C7) -/

theorem nextSeq_subset (d : String) (items : List α) :
    ∀ (cs : List Int) (fs : FS α), read_intermediate fs d = items →
      ∀ b ∈ nextSeq fs d cs, ∀ x ∈ b, x ∈ items := by
  intro cs
  induction cs with
  | nil =>
    intro fs hi b hb
    simp [nextSeq] at hb
  | cons c rest ih =>
    intro fs hi b hb x hx
    simp only [nextSeq, List.mem_cons] at hb
    rcases hb with hb | hb
    · subst hb
      by_cases hg : (read_intermediate fs d).length = 0 ∨
          ((read_intermediate fs d).length : Int) ≤ (read_pagination_state fs d).offset
      · rw [get_next_results_of_guard fs c d hg] at hx
        simp at hx
      · rw [get_next_batch_of_not_guard fs c d hg, hi] at hx
        exact mem_pySlice _ _ _ _ hx
    · exact ih (get_next_results fs c d).2
        (by rw [read_intermediate_get_next, hi]) b hb x hx

/-- C7: after a second store_search_results(items2, ps2) on the same
partition (following an earlier store of items1 there), the stored
result set equals items2, and every batch that any further sequence of
get_next_results calls returns on that partition contains only elements
of items2 — the previously stored items are fully discarded. -/
theorem second_store_discards (fs : FS α) (d : String) (items1 items2 : List α)
    (ps1 ps2 : Int) :
    read_intermediate (store_search_results
        (store_search_results fs items1 ps1 d).2 items2 ps2 d).2 d = items2 ∧
    ∀ (cs : List Int) (b : List α),
      b ∈ nextSeq (store_search_results
        (store_search_results fs items1 ps1 d).2 items2 ps2 d).2 d cs →
      ∀ x ∈ b, x ∈ items2 := by
  constructor
  · exact read_intermediate_store _ items2 ps2 d
  · intro cs b hb x hx
    exact nextSeq_subset d items2 cs _ (read_intermediate_store _ items2 ps2 d) b hb x hx

/-- Witness for C7 at a concrete input: [9] overwritten by [1,2], one
next call with count 1 returning [2], whose element 2 lies in [1,2]. -/
theorem second_store_discards_witness :
    ([2] : List Nat) ∈ nextSeq (store_search_results
        (store_search_results (⟨IFile.missing, PFile.missing⟩ : FS Nat) [9] 5 "default").2
        [1, 2] 1 "default").2 "default" [1] ∧
    (2 : Nat) ∈ ([2] : List Nat) ∧
    (2 : Nat) ∈ ([1, 2] : List Nat) :=
  ⟨by decide, by decide,
    (second_store_discards (⟨IFile.missing, PFile.missing⟩ : FS Nat) "default" [9] [1, 2] 5 1).2
      [1] [2] (by decide) 2 (by decide)⟩

/-! ## The chat endpoint ignores device_id (claim C5) -/

theorem chat_endpoint_files_plain (request : ChatRequest) (fresh_id : String)
    (rows : List Perfume) (content final_reply : String) (st : AppState Perfume) :
    (chat_endpoint request fresh_id rows (.plain content) final_reply st).2.files =
      st.files := by
  simp only [chat_endpoint, update_conversation]
  exact get_conversation_files st _

theorem chat_endpoint_files_search (request : ChatRequest) (fresh_id : String)
    (rows : List Perfume) (tcid : String) (filters : Filters)
    (final_reply : String) (st : AppState Perfume) :
    (chat_endpoint request fresh_id rows (.tool tcid (.search filters)) final_reply st).2.files =
      (store_search_results st.files (search_perfumes rows filters) 5 "default").2 := by
  simp only [chat_endpoint, update_conversation]
  rw [get_conversation_files]

theorem chat_endpoint_files_next (request : ChatRequest) (fresh_id : String)
    (rows : List Perfume) (tcid : String) (count : Int)
    (final_reply : String) (st : AppState Perfume) :
    (chat_endpoint request fresh_id rows (.tool tcid (.nextResults count)) final_reply st).2.files =
      (get_next_results st.files count "default").2 := by
  simp only [chat_endpoint, update_conversation]
  rw [get_conversation_files]

theorem chat_endpoint_files_other (request : ChatRequest) (fresh_id : String)
    (rows : List Perfume) (tcid func_name : String)
    (final_reply : String) (st : AppState Perfume) :
    (chat_endpoint request fresh_id rows (.tool tcid (.other func_name)) final_reply st).2.files =
      st.files := by
  simp only [chat_endpoint, update_conversation]
  exact get_conversation_files st _

/-- C5: the chat endpoint's behaviour is independent of the request's
device_id field — two requests differing only in device_id produce the
same response and the same final state, because every pagination helper
is invoked with the default partition key "default" — and the endpoint's
pagination effects are confined to that partition: the stored result set
and cursor of any other partition read back unchanged. -/
theorem chat_endpoint_device_id_irrelevant (m : String) (cid : Option String)
    (d1 d2 : Option String) (fresh_id : String) (rows : List Perfume)
    (turn : AssistantTurn) (final_reply : String) (st : AppState Perfume) :
    chat_endpoint ⟨m, cid, d1⟩ fresh_id rows turn final_reply st =
      chat_endpoint ⟨m, cid, d2⟩ fresh_id rows turn final_reply st ∧
    ∀ p : String, p ≠ "default" →
      read_intermediate
          (chat_endpoint ⟨m, cid, d1⟩ fresh_id rows turn final_reply st).2.files p =
        read_intermediate st.files p ∧
      read_pagination_state
          (chat_endpoint ⟨m, cid, d1⟩ fresh_id rows turn final_reply st).2.files p =
        read_pagination_state st.files p := by
  constructor
  · rfl
  · intro p hp
    have hdp : "default" ≠ p := Ne.symm hp
    cases turn with
    | plain content =>
      rw [chat_endpoint_files_plain]
      exact ⟨rfl, rfl⟩
    | tool tcid inv =>
      cases inv with
      | search filters =>
        rw [chat_endpoint_files_search]
        exact ⟨read_intermediate_store_ne _ _ _ _ _ hdp,
          read_pagination_store_ne _ _ _ _ _ hdp⟩
      | nextResults count =>
        rw [chat_endpoint_files_next]
        exact ⟨read_intermediate_get_next _ _ _ _,
          read_pagination_get_next_ne _ _ _ _ hdp⟩
      | other func_name =>
        rw [chat_endpoint_files_other]
        exact ⟨rfl, rfl⟩

/-- Witness for C5 at a concrete input: a search tool call, two device
ids, and the untouched partition "x". -/
theorem chat_endpoint_device_id_irrelevant_witness :
    ("x" : String) ≠ "default" ∧
    read_intermediate (chat_endpoint ⟨"hi", none, some "devA"⟩ "fresh" []
        (.tool "t1" (.search ⟨none, none, none, none, none⟩)) "ok"
        ⟨[], ⟨IFile.missing, PFile.missing⟩⟩).2.files "x" =
      read_intermediate (⟨[], ⟨IFile.missing, PFile.missing⟩⟩ : AppState Perfume).files "x" :=
  ⟨by decide,
    ((chat_endpoint_device_id_irrelevant "hi" none (some "devA") (some "devB") "fresh" []
      (.tool "t1" (.search ⟨none, none, none, none, none⟩)) "ok"
      ⟨[], ⟨IFile.missing, PFile.missing⟩⟩).2 "x" (by decide)).1⟩

/-! ## get_conversation does not reset pagination (claim C8) -/

/-- C8: at a concrete state whose "default" cursor is {offset 5, total
10} and with an unseen conversation id, get_conversation creates the
transcript seeded with the fixed system prompt but leaves the pagination
cursor untouched at {5, 10}: it never resets it to {0, 0} (the code
comment defers the reset to routes.py, which never performs it). -/
theorem get_conversation_no_reset :
    (get_conversation (⟨[], ⟨IFile.missing, PFile.byDevice [("default", ⟨5, 10⟩)]⟩⟩ :
        AppState Nat) "c1").1 = [Message.system systemPromptText] ∧
    read_pagination_state (get_conversation (⟨[], ⟨IFile.missing,
        PFile.byDevice [("default", ⟨5, 10⟩)]⟩⟩ : AppState Nat) "c1").2.files "default" =
      ⟨5, 10⟩ ∧
    (⟨5, 10⟩ : PagState) ≠ ⟨0, 0⟩ := by
  refine ⟨rfl, rfl, by decide⟩

/-! ## The gender filter (claim C9) -/

theorem gender_clause_ok_men (filters : Filters) (item : Perfume) (g : String)
    (hg : filters.gender = some g) (hne : g ≠ "") (hmen : py_lower g = "men")
    (hok : gender_clause_ok filters item = true) :
    item.gender.map py_lower = ["men"] := by
  simp only [gender_clause_ok, hg, Option.getD_some, truthy, hmen] at hok
  rw [if_pos (show (!(g == "")) = true by simp [hne])] at hok
  by_contra hdb
  rw [if_pos (show (("men" == "men") &&
      (item.gender.map py_lower != ["men"])) = true by simp [hdb])] at hok
  exact Bool.false_ne_true hok

theorem gender_clause_ok_women (filters : Filters) (item : Perfume) (g : String)
    (hg : filters.gender = some g) (hne : g ≠ "") (hwomen : py_lower g = "women")
    (hok : gender_clause_ok filters item = true) :
    item.gender.map py_lower = ["women"] := by
  simp only [gender_clause_ok, hg, Option.getD_some, truthy, hwomen] at hok
  rw [if_pos (show (!(g == "")) = true by simp [hne])] at hok
  rw [if_neg (show ¬ ((("women" == "men") &&
      (item.gender.map py_lower != ["men"])) = true) by simp)] at hok
  by_contra hdb
  rw [if_pos (show (("women" == "women") &&
      (item.gender.map py_lower != ["women"])) = true by simp [hdb])] at hok
  exact Bool.false_ne_true hok

/-- C9 (amended): when search_perfumes is given a filters mapping whose
gender value lowercases to "men" or "women", an item is included in the
results only if its lowercased Gender list equals exactly the
corresponding singleton ["men"] resp. ["women"] — equality, not
containment.  Gender values other than men/women impose no constraint:
see the counterexample. -/
theorem gender_filter_exact_singleton (rows : List Perfume) (filters : Filters)
    (item : Perfume) (g : String) (hg : filters.gender = some g)
    (hmw : py_lower g = "men" ∨ py_lower g = "women")
    (hmem : item ∈ search_perfumes rows filters) :
    item.gender.map py_lower = [py_lower g] := by
  have hne : g ≠ "" := by
    intro h
    subst h
    rcases hmw with h1 | h1 <;> exact absurd h1 (by decide)
  have hflt := (List.mem_filter.mp hmem).2
  simp only [matches_filters, Bool.and_eq_true] at hflt
  have hok : gender_clause_ok filters item = true := hflt.2
  rcases hmw with h1 | h1
  · rw [h1]
    exact gender_clause_ok_men filters item g hg hne h1 hok
  · rw [h1]
    exact gender_clause_ok_women filters item g hg hne h1 hok

/-- C9 counterexample: with the gender filter value "unisex" — present
and truthy, but neither men nor women — search_perfumes applies no
gender constraint at all: an item whose Gender list is ["unisex"] is
included although its gender set equals neither singleton. -/
theorem gender_filter_unisex_counterexample :
    search_perfumes [⟨"X", [], [], [], [], ["unisex"]⟩]
        ⟨none, none, none, none, some "unisex"⟩ =
      [⟨"X", [], [], [], [], ["unisex"]⟩] ∧
    (["unisex"].map py_lower ≠ ["men"]) ∧
    (["unisex"].map py_lower ≠ ["women"]) := by
  decide

/-- Witness for C9 (amended) at a concrete input: filter gender "Men",
catalog row with Gender ["MEN"]. -/
theorem gender_filter_exact_singleton_witness :
    (⟨none, none, none, none, some "Men"⟩ : Filters).gender = some "Men" ∧
    (py_lower "Men" = "men" ∨ py_lower "Men" = "women") ∧
    (⟨"A", [], [], [], [], ["MEN"]⟩ : Perfume) ∈
      search_perfumes [⟨"A", [], [], [], [], ["MEN"]⟩]
        ⟨none, none, none, none, some "Men"⟩ ∧
    (⟨"A", [], [], [], [], ["MEN"]⟩ : Perfume).gender.map py_lower =
      [py_lower "Men"] :=
  ⟨rfl, Or.inl (by decide), by decide,
    gender_filter_exact_singleton [⟨"A", [], [], [], [], ["MEN"]⟩]
      ⟨none, none, none, none, some "Men"⟩ ⟨"A", [], [], [], [], ["MEN"]⟩ "Men"
      rfl (Or.inl (by decide)) (by decide)⟩

/-! ## Reads degrade to defaults on missing or corrupt files (claim C10) -/

/-- C10: when the persisted files backing the two stores are missing or
unreadable (corrupt / not valid JSON), the read helpers return the
default value — the empty sequence for _read_intermediate and
{offset 0, total_results 0} for _read_pagination_state — instead of
propagating the failure to the caller. -/
theorem reads_degrade_to_default (fs : FS α) (d : String)
    (hi : fs.inter = IFile.missing ∨ fs.inter = IFile.corrupt)
    (hp : fs.pag = PFile.missing ∨ fs.pag = PFile.corrupt) :
    read_intermediate fs d = [] ∧
    read_pagination_state fs d = ⟨0, 0⟩ := by
  constructor
  · rcases hi with h | h <;> simp [read_intermediate, h]
  · rcases hp with h | h <;> simp [read_pagination_state, h]

/-- Witness for C10 at a concrete input: missing intermediate file,
corrupt pagination file. -/
theorem reads_degrade_to_default_witness :
    ((⟨IFile.missing, PFile.corrupt⟩ : FS Nat).inter = IFile.missing ∨
      (⟨IFile.missing, PFile.corrupt⟩ : FS Nat).inter = IFile.corrupt) ∧
    ((⟨IFile.missing, PFile.corrupt⟩ : FS Nat).pag = PFile.missing ∨
      (⟨IFile.missing, PFile.corrupt⟩ : FS Nat).pag = PFile.corrupt) ∧
    (read_intermediate (⟨IFile.missing, PFile.corrupt⟩ : FS Nat) "default" = [] ∧
      read_pagination_state (⟨IFile.missing, PFile.corrupt⟩ : FS Nat) "default" = ⟨0, 0⟩) :=
  ⟨Or.inl rfl, Or.inr rfl,
    reads_degrade_to_default (⟨IFile.missing, PFile.corrupt⟩ : FS Nat) "default"
      (Or.inl rfl) (Or.inr rfl)⟩

end PerfumeBot
